import Mathlib

/-
Verification of the retryxx retry executor (src/retryxx/retryxx_retry.h).

The development shallowly embeds the three algorithmic pieces of the header:
  * `BackoffPolicy.getDelay`   (lines 162-172): iterative capped exponential
    delay with full jitter;
  * `retry`                    (lines 194-221): the retry control loop with a
    result predicate and an exception predicate inside a try/catch;
  * `detail.interruptibleSleep` (lines 229-248): incremental sleep polling a
    stop token.

Modelling conventions:
  * durations (`std::chrono::milliseconds`) are `Int` millisecond counts;
  * the policy's `double multiplier` is only ever used through
    `static_cast<long long> (multiplier)` (line 167), so the model stores that
    truncated integer directly as `multiplier : Int`;
  * the `std::mt19937_64` generator is modelled by an external stream of raw
    draws (`raws : Nat → Nat`), one draw consumed per `getDelay` call, and
    `uniform_int_distribution<long long> dist (0, hi)` is modelled as
    `raw % (hi + 1)` — an arbitrary surjection onto the contractual range
    `[0, hi]`; the theorems only use the range property;
  * real time is not modelled; `interruptibleSleep` instead returns the total
    number of milliseconds it slept, and reads of the shared atomic stop flag
    are modelled as a trace `requested : Nat → Bool` indexed by a running read
    counter (each `stop_requested()` call consumes one index);
  * a C++ computation that may throw a `std::exception`-derived error is
    embedded in `Except Exn` where `Exn` is the `what()` description string;
    the `catch (const std::exception&)` block of `retry` is the translation of
    the error branch.
-/

namespace Retryxx

/-- Description string of a `std::exception`-derived error (its `what()`). -/
abbrev Exn := String

/-- The `expected<ResultType, std::string>` outcome returned by `retry`. -/
inductive Expected (α : Type) where
  | value : α → Expected α
  | unexpected : String → Expected α

/-- Model of `retryxx::stop_token`: `possible` is `stop_possible()` (whether a
source is attached) and `requested k` is the value the shared atomic stop flag
shows at the `k`-th read (`stop_requested()` consumes one read index). -/
structure StopToken where
  possible : Bool
  requested : Nat → Bool

/-- Model of `retryxx::BackoffPolicy` (lines 138-173).  Durations are
millisecond counts; `multiplier` is the `static_cast<long long>` truncation of
the C++ `double multiplier`, the only form in which `getDelay` reads it.  The
`mt19937_64 rng` member is modelled externally by the raw draw passed to
`getDelay`. -/
structure BackoffPolicy where
  initialDelay : Int
  multiplier : Int
  maxDelay : Int

/-- The delay-growth loop body of `getDelay` (line 165-168), iterated `k`
times starting from `currentDelay = c`:
`currentDelay = std::min (currentDelay * multiplier, maxDelay)`. -/
def preJitterAux (p : BackoffPolicy) : Int → Nat → Int
  | c, 0 => c
  | c, k + 1 => preJitterAux p (min (c * p.multiplier) p.maxDelay) k

/-- The value of `currentDelay` after the `for (int i = 0; i < attempt - 1; ++i)`
loop of `getDelay`: the pre-jitter delay for the given (1-based) attempt.
For `attempt ≤ 1` the loop runs zero times. -/
def preJitterDelay (p : BackoffPolicy) (attempt : Int) : Int :=
  preJitterAux p p.initialDelay (attempt - 1).toNat

/-- Model of `std::uniform_int_distribution<long long> dist (0, hi)` applied to
one raw generator draw: some value in `[0, hi]` (for `hi ≥ 0`; for `hi < 0`
the C++ behaviour is undefined). -/
def uniformInt (hi : Int) (raw : Nat) : Int :=
  (raw : Int) % (hi + 1)

/-- Model of `BackoffPolicy::getDelay` (lines 162-172): grow the delay, then
draw a jittered value in `[0, currentDelay]` from the generator. -/
def BackoffPolicy.getDelay (p : BackoffPolicy) (attempt : Int) (raw : Nat) : Int :=
  uniformInt (preJitterDelay p attempt) raw

/-- The `while (remaining > 0 && !stopToken.stop_requested())` loop of
`interruptibleSleep` (lines 240-247), followed by the final
`return stopToken.stop_requested();`.

Arguments: fuel, `remaining`, milliseconds slept so far, next read index.
Result: (return value, total milliseconds slept, next read index).

The loop terminates because each iteration lowers `remaining` by
`min 10 remaining ≥ 1`; the structural `fuel`, set to `remaining.toNat` by the
caller, therefore never runs out before `remaining ≤ 0`, and the fuel-zero
branch returns the same result as the `remaining ≤ 0` exit.  Note that when
the loop condition reads the flag as `true`, the `return` statement performs a
second, fresh read. -/
def sleepLoop (tok : StopToken) : Nat → Int → Int → Nat → Bool × Int × Nat
  | 0, _, slept, r => (tok.requested r, slept, r + 1)
  | fuel + 1, remaining, slept, r =>
    if 0 < remaining then
      if tok.requested r then
        (tok.requested (r + 1), slept, r + 2)
      else
        sleepLoop tok fuel (remaining - min 10 remaining) (slept + min 10 remaining) (r + 1)
    else
      (tok.requested r, slept, r + 1)

/-- Model of `detail::interruptibleSleep` (lines 229-248).  With no attached
stop source it performs one plain `sleep_for (duration)` — which blocks for
`max duration 0` milliseconds and reads the flag never — and reports `false`.
Otherwise it runs the incremental sleep loop. -/
def interruptibleSleep (duration : Int) (tok : StopToken) (r : Nat) : Bool × Int × Nat :=
  if tok.possible then
    sleepLoop tok duration.toNat duration 0 r
  else
    (false, max duration 0, r)

/-- Observable progress counters of one `retry` run: how many times `func` was
invoked, how many inter-attempt waits were performed (equivalently, how many
`getDelay` draws were consumed), and the next stop-flag read index. -/
structure LoopState where
  invocations : Nat
  waits : Nat
  reads : Nat

/-- The caller-supplied inputs of `retry`: the operation (indexed by how many
invocations happened before, since each call may behave differently), the
result-based retry predicate (which may itself throw, being invoked inside the
`try` block), and the exception-based retry predicate.  Per the design, every
error thrown is describable, i.e. carries a `what()` string. -/
structure RetryEnv (α : Type) where
  func : Nat → Except Exn α
  shouldRetryPredicate : α → Except Exn Bool
  shouldRetryExceptionPredicate : Exn → Bool

/-- Lines 206-210 of the `try` block: `result = std::invoke (func);` followed
by `if (!shouldRetryPredicate (result)) return result;`.  `some out` is an
early `return` from the loop, `none` falls through to the next iteration; an
`Except.error` is a throw that will reach the `catch`.  The invocation counter
advances as soon as `func` is entered, whether or not it throws. -/
def invokeStep {α : Type} (env : RetryEnv α) (st : LoopState) :
    Except (Exn × LoopState) (Option (Expected α) × LoopState) :=
  let i := st.invocations
  let st1 : LoopState := { st with invocations := i + 1 }
  match env.func i with
  | Except.error e => Except.error (e, st1)
  | Except.ok result =>
    match env.shouldRetryPredicate result with
    | Except.error e => Except.error (e, st1)
    | Except.ok b =>
      if b then Except.ok (none, st1) else Except.ok (some (Expected.value result), st1)

/-- The whole `try` block of one loop iteration (lines 196-211): for
`attempts > 0`, first `interruptibleSleep (backoffPolicy.getDelay (attempts),
stopToken)`, returning the cancellation outcome if it reports `true`; then the
invocation step. -/
def tryBlock {α : Type} (env : RetryEnv α) (tok : StopToken) (pol : BackoffPolicy)
    (raws : Nat → Nat) (attempts : Nat) (st : LoopState) :
    Except (Exn × LoopState) (Option (Expected α) × LoopState) :=
  if attempts > 0 then
    let s := interruptibleSleep (pol.getDelay (attempts : Int) (raws st.waits)) tok st.reads
    let st1 : LoopState := { st with waits := st.waits + 1, reads := s.2.2 }
    if s.1 then
      Except.ok (some (Expected.unexpected "Retry operation was cancelled during backoff."), st1)
    else
      invokeStep env st1
  else
    invokeStep env st

/-- One full loop iteration: the `try` block wrapped in
`catch (const std::exception& e)` (lines 212-218).  In this embedding every
thrown error is describable, so the handler catches every error of the try
block; `if (!shouldRetryExceptionPredicate (e)) return unexpected (...)`,
otherwise fall through to the next iteration. -/
def iterStep {α : Type} (env : RetryEnv α) (tok : StopToken) (pol : BackoffPolicy)
    (raws : Nat → Nat) (attempts : Nat) (st : LoopState) :
    Except (Exn × LoopState) (Option (Expected α) × LoopState) :=
  match tryBlock env tok pol raws attempts st with
  | Except.ok r => Except.ok r
  | Except.error (e, st1) =>
    if env.shouldRetryExceptionPredicate e then
      Except.ok (none, st1)
    else
      Except.ok (some (Expected.unexpected ("Retry failed with exception: " ++ e)), st1)

/-- The `for (int attempts = 0; attempts < maxAttempts; ++attempts)` loop of
`retry` (lines 194-221).  `fuel` is the number of remaining iterations; the
caller passes `maxAttempts.toNat` so that the loop runs exactly
`max maxAttempts 0` times, matching the signed C++ comparison.  When the loop
finishes, line 221 returns the exhaustion message.  The codomain keeps the
error channel of a C++ function that could in principle propagate an
exception; the theorems show it never does. -/
def retryLoop {α : Type} (env : RetryEnv α) (tok : StopToken) (pol : BackoffPolicy)
    (raws : Nat → Nat) (maxAttempts : Int) :
    Nat → Nat → LoopState → Except (Exn × LoopState) (Expected α × LoopState)
  | _, 0, st =>
    Except.ok (Expected.unexpected ("Retry failed after " ++ toString maxAttempts ++ " attempts."), st)
  | attempts, fuel + 1, st =>
    match iterStep env tok pol raws attempts st with
    | Except.error p => Except.error p
    | Except.ok (some out, st1) => Except.ok (out, st1)
    | Except.ok (none, st1) => retryLoop env tok pol raws maxAttempts (attempts + 1) fuel st1

/-- Model of `retryxx::retry` (lines 187-222), starting from attempt index 0
with fresh progress counters. -/
def retry {α : Type} (env : RetryEnv α) (tok : StopToken) (pol : BackoffPolicy)
    (raws : Nat → Nat) (maxAttempts : Int) :
    Except (Exn × LoopState) (Expected α × LoopState) :=
  retryLoop env tok pol raws maxAttempts 0 maxAttempts.toNat ⟨0, 0, 0⟩

/-- A default-constructed `stop_token`: no source attached, flag never set. -/
def tokNone : StopToken := ⟨false, fun _ => false⟩

/-- A token whose source already requested cancellation: every read is true. -/
def tokAll : StopToken := ⟨true, fun _ => true⟩

/-- The documented default policy: 1 second, ×2, 5 minutes (in ms). -/
def polDefault : BackoffPolicy := ⟨1000, 2, 300000⟩

/-- A degenerate raw-draw stream for concrete runs. -/
def rawsZero : Nat → Nat := fun _ => 0

/-- The fresh progress counters a `retry` call starts from. -/
def stZero : LoopState := ⟨0, 0, 0⟩

/-- An operation that always throws with description "boom", a result
predicate that never retries, and an exception predicate that always retries. -/
def envFail : RetryEnv Int :=
  ⟨fun _ => Except.error "boom", fun _ => Except.ok false, fun _ => true⟩

/-- An operation that throws "transient" on its first invocation and "fatal"
afterwards, with an exception predicate retrying only "transient". -/
def envSplit : RetryEnv Int :=
  ⟨fun i => Except.error (if i = 0 then "transient" else "fatal"),
   fun _ => Except.ok false, fun s => decide (s = "transient")⟩

/-- An operation that always returns 42, accepted by the result predicate. -/
def envOk : RetryEnv Int :=
  ⟨fun _ => Except.ok 42, fun _ => Except.ok false, fun _ => true⟩

/-- An operation that returns 7 while the result predicate itself throws
"bad"; the exception predicate does not retry. -/
def envPredThrow : RetryEnv Int :=
  ⟨fun _ => Except.ok 7, fun _ => Except.error "bad", fun _ => false⟩

/-- Unfolding of `String.append` to list append on the underlying data. -/
lemma data_append (a b : String) : (a ++ b).data = a.data ++ b.data := rfl

/-- The cancellation message differs from every exhaustion message, whatever
number the latter cites (they already differ at character index 6). -/
lemma cancel_ne_exhaust (s : String) :
    "Retry operation was cancelled during backoff." ≠ "Retry failed after " ++ s ++ " attempts." := by
  intro hcontra
  have hd : ("Retry operation was cancelled during backoff.").data
      = ("Retry failed after ").data ++ (s.data ++ (" attempts.").data) := by
    rw [hcontra]
    show (("Retry failed after " ++ s) ++ " attempts.").data = _
    rw [data_append, data_append, List.append_assoc]
  have h6 : (("Retry operation was cancelled during backoff.").data)[6]?
      = (("Retry failed after ").data ++ (s.data ++ (" attempts.").data))[6]? := by
    rw [hd]
  rw [List.getElem?_append_left (by decide)] at h6
  exact absurd h6 (by decide)

/-- The delay stays nonnegative throughout the growth loop when the truncated
multiplier and the cap are nonnegative. -/
lemma preJitterAux_nonneg (p : BackoffPolicy) (hm : 0 ≤ p.multiplier) (hb : 0 ≤ p.maxDelay) :
    ∀ (k : Nat) (c : Int), 0 ≤ c → 0 ≤ preJitterAux p c k
  | 0, _, hc => hc
  | k + 1, _, hc => preJitterAux_nonneg p hm hb k _ (le_min (mul_nonneg hc hm) hb)

/-- Closed form of the growth loop after at least one iteration: iterating
`c ↦ min (c * m) cap` for `k + 1` steps from a nonnegative start with `m ≥ 1`
and a nonnegative cap gives `min (c * m ^ (k + 1)) cap`. -/
lemma preJitterAux_closed (p : BackoffPolicy) (hm : 1 ≤ p.multiplier) (hb : 0 ≤ p.maxDelay) :
    ∀ (k : Nat) (c : Int), 0 ≤ c →
      preJitterAux p c (k + 1) = min (c * p.multiplier ^ (k + 1)) p.maxDelay := by
  intro k
  induction k with
  | zero =>
    intro c _
    show min (c * p.multiplier) p.maxDelay = min (c * p.multiplier ^ 1) p.maxDelay
    rw [pow_one]
  | succ n ih =>
    intro c hc
    have hm0 : (0:Int) ≤ p.multiplier := le_trans zero_le_one hm
    have hstep : preJitterAux p c (n + 2)
        = preJitterAux p (min (c * p.multiplier) p.maxDelay) (n + 1) := rfl
    rw [hstep, ih _ (le_min (mul_nonneg hc hm0) hb)]
    rcases le_total (c * p.multiplier) p.maxDelay with h | h
    · rw [min_eq_left h,
        show c * p.multiplier * p.multiplier ^ (n + 1) = c * p.multiplier ^ (n + 2) by ring]
    · have h1 : (1:Int) ≤ p.multiplier ^ (n + 1) := one_le_pow₀ hm
      have hbl : p.maxDelay ≤ p.maxDelay * p.multiplier ^ (n + 1) :=
        le_mul_of_one_le_right hb h1
      have hr : p.maxDelay ≤ c * p.multiplier ^ (n + 2) := by
        calc p.maxDelay ≤ p.maxDelay * p.multiplier ^ (n + 1) := hbl
          _ ≤ c * p.multiplier * p.multiplier ^ (n + 1) :=
            mul_le_mul_of_nonneg_right h (pow_nonneg hm0 _)
          _ = c * p.multiplier ^ (n + 2) := by ring
      rw [min_eq_right h, min_eq_right hbl, min_eq_right hr]

/-- The pre-jitter delay of any attempt is nonnegative for a policy with
nonnegative initial delay, nonnegative truncated multiplier and nonnegative
cap. -/
lemma preJitterDelay_nonneg (p : BackoffPolicy) (n : Int)
    (h0 : 0 ≤ p.initialDelay) (hm : 0 ≤ p.multiplier) (hb : 0 ≤ p.maxDelay) :
    0 ≤ preJitterDelay p n :=
  preJitterAux_nonneg p hm hb _ _ h0

/-- Closed form of the pre-jitter delay for attempts that run the growth loop
at least once. -/
lemma preJitterDelay_ge_two (p : BackoffPolicy) (n : Int)
    (h0 : 0 ≤ p.initialDelay) (hm : 1 ≤ p.multiplier) (hb : 0 ≤ p.maxDelay) (hn : 2 ≤ n) :
    preJitterDelay p n = min (p.initialDelay * p.multiplier ^ (n - 1).toNat) p.maxDelay := by
  have hk : (n - 1).toNat = (n - 2).toNat + 1 := by omega
  rw [preJitterDelay, hk, preJitterAux_closed p hm hb _ _ h0, ← hk]

/-- The jitter draw lands in `[0, hi]` whenever the upper bound is
nonnegative. -/
lemma uniformInt_nonneg (hi : Int) (hhi : 0 ≤ hi) (raw : Nat) : 0 ≤ uniformInt hi raw :=
  Int.emod_nonneg _ (by omega)

/-- Upper half of the jitter range property. -/
lemma uniformInt_le (hi : Int) (hhi : 0 ≤ hi) (raw : Nat) : uniformInt hi raw ≤ hi := by
  have h := Int.emod_lt_of_pos (raw : Int) (show (0:Int) < hi + 1 by omega)
  exact Int.lt_add_one_iff.mp h

/-- When the stop flag is never set, the sleep loop runs to completion: it
reports no cancellation and accumulates the whole (nonnegative part of the)
remaining duration, provided the fuel covers the remaining iterations. -/
lemma sleepLoop_no_cancel (tok : StopToken) (h : ∀ k, tok.requested k = false) :
    ∀ (fuel : Nat) (rem slept : Int) (r : Nat), rem.toNat ≤ fuel →
      ∃ r1, sleepLoop tok fuel rem slept r = (false, slept + max rem 0, r1) := by
  intro fuel
  induction fuel with
  | zero =>
    intro rem slept r hle
    have hmax : max rem 0 = 0 := max_eq_right (by omega)
    exact ⟨r + 1, by simp [sleepLoop, h, hmax]⟩
  | succ n ih =>
    intro rem slept r hle
    by_cases hrem : 0 < rem
    · set d := min 10 rem with hd
      have hminle : d ≤ rem := min_le_right _ _
      have hminpos : (0:Int) < d := lt_min (by norm_num) hrem
      have hstep : sleepLoop tok (n + 1) rem slept r
          = sleepLoop tok n (rem - d) (slept + d) (r + 1) := by
        simp [sleepLoop, hrem, h r, hd]
      have hbound : (rem - d).toNat ≤ n := by omega
      obtain ⟨r1, hr1⟩ := ih (rem - d) (slept + d) (r + 1) hbound
      refine ⟨r1, ?_⟩
      rw [hstep, hr1, max_eq_left (by omega : (0:Int) ≤ rem - d),
        max_eq_left (le_of_lt hrem),
        show slept + d + (rem - d) = slept + rem by ring]
    · have hmax : max rem 0 = 0 := max_eq_right (by omega)
      exact ⟨r + 1, by simp [sleepLoop, hrem, h, hmax]⟩

/-- When the stop flag is already set and stays set, the sleep loop returns
`true` at its very first flag read, having slept nothing beyond what it had
already accumulated. -/
lemma sleepLoop_cancelled (tok : StopToken) (h : ∀ k, tok.requested k = true)
    (fuel : Nat) (rem slept : Int) (r : Nat) :
    ∃ r1, sleepLoop tok fuel rem slept r = (true, slept, r1) := by
  cases fuel with
  | zero => exact ⟨r + 1, by simp [sleepLoop, h]⟩
  | succ n =>
    by_cases hrem : 0 < rem
    · exact ⟨r + 2, by simp [sleepLoop, hrem, h]⟩
    · exact ⟨r + 1, by simp [sleepLoop, hrem, h]⟩

/-- C1 counterexample: for attempt 1 the growth loop runs zero times, so the
pre-jitter delay is `initialDelay` itself, NOT capped at `maxDelay`.  With
`initialDelay = 10`, `multiplier = 2`, `maxDelay = 5`, the pre-jitter delay of
attempt 1 is 10, while the claim's formula `min (10 * 2^0) 5` gives 5; in
particular the pre-jitter delay exceeds `maxDelay`. -/
theorem getDelay_cap_cex :
    preJitterDelay ⟨10, 2, 5⟩ 1 = 10
    ∧ min ((10:Int) * 2 ^ ((1:Int) - 1).toNat) 5 = 5
    ∧ ¬ preJitterDelay ⟨10, 2, 5⟩ 1 ≤ (5:Int) := by
  decide

/-- C1 (amended): for a policy with nonnegative `initialDelay` and `maxDelay`
and truncated multiplier at least 1, and attempt `n ≥ 1`: for `n = 1` the
pre-jitter delay is `initialDelay` itself (uncapped); for `n ≥ 2` it equals
`min (initialDelay * multiplier^(n-1)) maxDelay`, computed iteratively, and in
particular does not exceed `maxDelay`; and the value `getDelay` returns always
lies in the closed interval `[0, pre-jitter delay]`. -/
theorem getDelay_preJitter_bounds (p : BackoffPolicy) (n : Int) (raw : Nat)
    (h0 : 0 ≤ p.initialDelay) (hm : 1 ≤ p.multiplier) (hb : 0 ≤ p.maxDelay) (_hn : 1 ≤ n) :
    (n = 1 → preJitterDelay p n = p.initialDelay)
    ∧ (2 ≤ n → preJitterDelay p n = min (p.initialDelay * p.multiplier ^ (n - 1).toNat) p.maxDelay
        ∧ preJitterDelay p n ≤ p.maxDelay)
    ∧ 0 ≤ p.getDelay n raw ∧ p.getDelay n raw ≤ preJitterDelay p n := by
  have hm0 : (0:Int) ≤ p.multiplier := le_trans zero_le_one hm
  have hpre : 0 ≤ preJitterDelay p n := preJitterDelay_nonneg p n h0 hm0 hb
  refine ⟨?_, ?_, uniformInt_nonneg _ hpre raw, uniformInt_le _ hpre raw⟩
  · intro h1
    rw [h1]
    rfl
  · intro h2
    have hcf := preJitterDelay_ge_two p n h0 hm hb h2
    exact ⟨hcf, by rw [hcf]; exact min_le_right _ _⟩

/-- Witness for the amended C1 theorem at the default policy, attempt 3. -/
theorem getDelay_preJitter_bounds_witness :
    ((0:Int) ≤ polDefault.initialDelay ∧ (1:Int) ≤ polDefault.multiplier
      ∧ (0:Int) ≤ polDefault.maxDelay ∧ (1:Int) ≤ 3)
    ∧ (((3:Int) = 1 → preJitterDelay polDefault 3 = polDefault.initialDelay)
      ∧ ((2:Int) ≤ 3 → preJitterDelay polDefault 3
            = min (polDefault.initialDelay * polDefault.multiplier ^ ((3:Int) - 1).toNat)
                polDefault.maxDelay
          ∧ preJitterDelay polDefault 3 ≤ polDefault.maxDelay)
      ∧ 0 ≤ polDefault.getDelay 3 5 ∧ polDefault.getDelay 3 5 ≤ preJitterDelay polDefault 3) :=
  ⟨⟨by decide, by decide, by decide, by decide⟩,
    getDelay_preJitter_bounds polDefault 3 5 (by decide) (by decide) (by decide) (by decide)⟩

/-- C7: for every attempt argument at most 1 (0 and negative values included)
the growth loop runs zero times, so the pre-jitter delay is the initial delay
itself and `getDelay` returns a jittered sample in `[0, initialDelay]`. -/
theorem getDelay_attempt_le_one (p : BackoffPolicy) (n : Int) (raw : Nat)
    (hn : n ≤ 1) (h0 : 0 ≤ p.initialDelay) :
    preJitterDelay p n = p.initialDelay
    ∧ 0 ≤ p.getDelay n raw ∧ p.getDelay n raw ≤ p.initialDelay := by
  have hk : (n - 1).toNat = 0 := by omega
  have hpre : preJitterDelay p n = p.initialDelay := by
    rw [preJitterDelay, hk]
    rfl
  have hget : p.getDelay n raw = uniformInt p.initialDelay raw := by
    rw [BackoffPolicy.getDelay, hpre]
  refine ⟨hpre, ?_, ?_⟩
  · rw [hget]; exact uniformInt_nonneg _ h0 raw
  · rw [hget]; exact uniformInt_le _ h0 raw

/-- Witness for C7 at the default policy with attempt 0. -/
theorem getDelay_attempt_le_one_witness :
    ((0:Int) ≤ 1 ∧ (0:Int) ≤ polDefault.initialDelay)
    ∧ (preJitterDelay polDefault 0 = polDefault.initialDelay
      ∧ 0 ≤ polDefault.getDelay 0 3 ∧ polDefault.getDelay 0 3 ≤ polDefault.initialDelay) :=
  ⟨⟨by decide, by decide⟩,
    getDelay_attempt_le_one polDefault 0 3 (by decide) (by decide)⟩

/-- C8 counterexample: `interruptibleSleep` can return `true` (cancelled) even
though it slept the entire requested duration — the flag is read afresh by the
final `return stop_requested();` after the loop already consumed the whole
duration.  Token: flag becomes set from the second read on (reads 1, 2, ...);
duration 10 ms: the loop's only condition read (index 0) sees `false`, the
loop sleeps all 10 ms, and the final read (index 1) sees `true`.  So the claim
"true means ... the wait ended early" fails: it returned `true` yet slept 10
of 10 ms, and `¬ 10 < 10`. -/
theorem interruptibleSleep_race_cex :
    interruptibleSleep 10 ⟨true, fun k => decide (1 ≤ k)⟩ 0 = (true, 10, 2)
    ∧ ¬ ((10:Int) < 10) := by
  decide

/-- C8 (amended): for a nonnegative duration, (1) with a token not associated
to any source the function performs one plain full-duration sleep, never reads
the flag, and returns `false`; (2) if no read of the flag ever observes
cancellation, the full duration elapses and the function returns `false`;
(3) a `true` return means some read observed cancellation — but the wait need
not have ended early (the final read happens after the loop). -/
theorem interruptibleSleep_semantics (d : Int) (tok : StopToken) (r0 : Nat) (hd : 0 ≤ d) :
    (tok.possible = false → interruptibleSleep d tok r0 = (false, d, r0))
    ∧ ((∀ k, tok.requested k = false) → ∃ r1, interruptibleSleep d tok r0 = (false, d, r1))
    ∧ ((interruptibleSleep d tok r0).1 = true → ∃ k, tok.requested k = true) := by
  have hmax : max d 0 = d := max_eq_left hd
  refine ⟨?_, ?_, ?_⟩
  · intro hp
    simp [interruptibleSleep, hp, hmax]
  · intro hreq
    by_cases hp : tok.possible
    · obtain ⟨r1, hr1⟩ := sleepLoop_no_cancel tok hreq d.toNat d 0 r0 le_rfl
      refine ⟨r1, ?_⟩
      simp only [interruptibleSleep, if_pos hp]
      rw [hr1, hmax, zero_add]
    · exact ⟨r0, by simp [interruptibleSleep, hp, hmax]⟩
  · intro htrue
    by_cases hall : ∀ k, tok.requested k = false
    · by_cases hp : tok.possible
      · obtain ⟨r1, hr1⟩ := sleepLoop_no_cancel tok hall d.toNat d 0 r0 le_rfl
        rw [interruptibleSleep, if_pos hp, hr1] at htrue
        simp at htrue
      · rw [interruptibleSleep, if_neg hp] at htrue
        simp at htrue
    · push_neg at hall
      obtain ⟨k, hk⟩ := hall
      exact ⟨k, by simpa using hk⟩

/-- Witness for the amended C8 theorem at duration 25 and the sourceless
token. -/
theorem interruptibleSleep_semantics_witness :
    (0:Int) ≤ 25
    ∧ ((tokNone.possible = false → interruptibleSleep 25 tokNone 0 = (false, 25, 0))
      ∧ ((∀ k, tokNone.requested k = false) → ∃ r1, interruptibleSleep 25 tokNone 0 = (false, 25, r1))
      ∧ ((interruptibleSleep 25 tokNone 0).1 = true → ∃ k, tokNone.requested k = true)) :=
  ⟨by decide, interruptibleSleep_semantics 25 tokNone 0 (by decide)⟩

/-- C2: the retry executor never propagates an exception to its caller — in
this embedding, where every error raised by the operation or the result
predicate is describable, the error channel of `retry` is unreachable and
every run produces a value-level `Expected` outcome. -/
theorem retry_total_outcome {α : Type} (env : RetryEnv α) (tok : StopToken)
    (pol : BackoffPolicy) (raws : Nat → Nat) (maxAttempts : Int) :
    ∃ out st, retry env tok pol raws maxAttempts = Except.ok (out, st) := by
  suffices h : ∀ (fuel attempts : Nat) (st : LoopState),
      ∃ out st1, retryLoop env tok pol raws maxAttempts attempts fuel st = Except.ok (out, st1) by
    exact h maxAttempts.toNat 0 ⟨0, 0, 0⟩
  intro fuel
  induction fuel with
  | zero =>
    intro attempts st
    exact ⟨_, st, rfl⟩
  | succ n ih =>
    intro attempts st
    have histep : ∃ r, iterStep env tok pol raws attempts st = Except.ok r := by
      cases htb : tryBlock env tok pol raws attempts st with
      | ok r => exact ⟨r, by simp [iterStep, htb]⟩
      | error p =>
        obtain ⟨e, st1⟩ := p
        by_cases hps : env.shouldRetryExceptionPredicate e
        · exact ⟨(none, st1), by simp [iterStep, htb, hps]⟩
        · exact ⟨(some (Expected.unexpected ("Retry failed with exception: " ++ e)), st1),
            by simp [iterStep, htb, hps]⟩
    obtain ⟨⟨out?, st1⟩, hstep⟩ := histep
    cases out? with
    | some out => exact ⟨out, st1, by simp [retryLoop, hstep]⟩
    | none =>
      obtain ⟨o2, s2, h2⟩ := ih (attempts + 1) st1
      exact ⟨o2, s2, by simp [retryLoop, hstep, h2]⟩

/-- C3: with an operation that always throws a retryable error and
`maxAttempts = 3` (and a token that cannot cancel, so waits complete), `retry`
invokes the operation exactly 3 times, performs exactly 2 waits, and returns
the exhaustion failure citing 3. -/
theorem retry_exhaustion_three {α : Type} (env : RetryEnv α) (tok : StopToken)
    (pol : BackoffPolicy) (raws : Nat → Nat) (e : Nat → Exn)
    (hf : ∀ i, env.func i = Except.error (e i))
    (hp : ∀ x, env.shouldRetryExceptionPredicate x = true)
    (htok : tok.possible = false) :
    retry env tok pol raws 3
      = Except.ok (Expected.unexpected "Retry failed after 3 attempts.", ⟨3, 2, 0⟩) := by
  show retryLoop env tok pol raws 3 0 3 ⟨0, 0, 0⟩ = _
  simp [retryLoop, iterStep, tryBlock, invokeStep, interruptibleSleep, hf, hp, htok]
  rfl

/-- Witness for C3 with the always-throwing environment. -/
theorem retry_exhaustion_three_witness :
    (∀ i, envFail.func i = Except.error "boom")
    ∧ (∀ x, envFail.shouldRetryExceptionPredicate x = true)
    ∧ tokNone.possible = false
    ∧ retry envFail tokNone polDefault rawsZero 3
        = Except.ok (Expected.unexpected "Retry failed after 3 attempts.", ⟨3, 2, 0⟩) :=
  ⟨fun _ => rfl, fun _ => rfl, rfl,
    retry_exhaustion_three envFail tokNone polDefault rawsZero (fun _ => "boom")
      (fun _ => rfl) (fun _ => rfl) rfl⟩

/-- C4: if the operation throws a retryable error on its first invocation and
a non-retryable one on its second, `retry` stops after exactly 2 invocations
and 1 wait and returns the terminal failure embedding the error's
description. -/
theorem retry_terminal_second {α : Type} (env : RetryEnv α) (tok : StopToken)
    (pol : BackoffPolicy) (raws : Nat → Nat) (maxAttempts : Int) (e0 e1 : Exn)
    (hm : 2 ≤ maxAttempts)
    (hf0 : env.func 0 = Except.error e0) (hf1 : env.func 1 = Except.error e1)
    (hp0 : env.shouldRetryExceptionPredicate e0 = true)
    (hp1 : env.shouldRetryExceptionPredicate e1 = false)
    (htok : tok.possible = false) :
    retry env tok pol raws maxAttempts
      = Except.ok (Expected.unexpected ("Retry failed with exception: " ++ e1), ⟨2, 1, 0⟩) := by
  obtain ⟨k, hk⟩ : ∃ k, maxAttempts.toNat = k + 2 := ⟨maxAttempts.toNat - 2, by omega⟩
  simp only [retry]
  rw [hk]
  simp [retryLoop, iterStep, tryBlock, invokeStep, interruptibleSleep, hf0, hf1, hp0, hp1, htok]

/-- Witness for C4 with the transient-then-fatal environment. -/
theorem retry_terminal_second_witness :
    (2:Int) ≤ 5
    ∧ envSplit.func 0 = Except.error "transient"
    ∧ envSplit.func 1 = Except.error "fatal"
    ∧ envSplit.shouldRetryExceptionPredicate "transient" = true
    ∧ envSplit.shouldRetryExceptionPredicate "fatal" = false
    ∧ tokNone.possible = false
    ∧ retry envSplit tokNone polDefault rawsZero 5
        = Except.ok (Expected.unexpected ("Retry failed with exception: " ++ "fatal"), ⟨2, 1, 0⟩) :=
  ⟨by decide, rfl, rfl, by decide, by decide, rfl,
    retry_terminal_second envSplit tokNone polDefault rawsZero 5 "transient" "fatal"
      (by decide) rfl rfl (by decide) (by decide) rfl⟩

/-- C5: if cancellation has already been requested when a between-attempts
wait begins (modelled by a token whose flag reads `true` from the start), the
wait returns cancelled immediately (zero milliseconds slept), `retry` stops
with the cancellation failure after exactly 1 invocation and 1 wait — the
operation is never invoked again — and the cancellation message differs from
every exhaustion message. -/
theorem retry_cancelled_wait {α : Type} (env : RetryEnv α) (tok : StopToken)
    (pol : BackoffPolicy) (raws : Nat → Nat) (maxAttempts : Int) (e0 : Exn)
    (hm : 2 ≤ maxAttempts)
    (hf0 : env.func 0 = Except.error e0)
    (hp0 : env.shouldRetryExceptionPredicate e0 = true)
    (hpos : tok.possible = true)
    (hreq : ∀ k, tok.requested k = true) :
    (∃ r1, interruptibleSleep (pol.getDelay 1 (raws 0)) tok 0 = (true, 0, r1))
    ∧ (∃ r1, retry env tok pol raws maxAttempts
        = Except.ok (Expected.unexpected "Retry operation was cancelled during backoff.",
            ⟨1, 1, r1⟩))
    ∧ (∀ s : String, "Retry operation was cancelled during backoff."
        ≠ "Retry failed after " ++ s ++ " attempts.") := by
  obtain ⟨r1, hsl⟩ := sleepLoop_cancelled tok hreq
    (pol.getDelay 1 (raws 0)).toNat (pol.getDelay 1 (raws 0)) 0 0
  have hint : interruptibleSleep (pol.getDelay 1 (raws 0)) tok 0 = (true, 0, r1) := by
    simp only [interruptibleSleep, hpos, if_true]
    exact hsl
  obtain ⟨k, hk⟩ : ∃ k, maxAttempts.toNat = k + 2 := ⟨maxAttempts.toNat - 2, by omega⟩
  refine ⟨⟨r1, hint⟩, ⟨r1, ?_⟩, cancel_ne_exhaust⟩
  simp only [retry]
  rw [hk]
  simp [retryLoop, iterStep, tryBlock, invokeStep, hf0, hp0, hint]

/-- Witness for C5 with the always-throwing environment and a token cancelled
from the start. -/
theorem retry_cancelled_wait_witness :
    ((2:Int) ≤ 5
      ∧ envFail.func 0 = Except.error "boom"
      ∧ envFail.shouldRetryExceptionPredicate "boom" = true
      ∧ tokAll.possible = true
      ∧ (∀ k, tokAll.requested k = true))
    ∧ ((∃ r1, interruptibleSleep (polDefault.getDelay 1 (rawsZero 0)) tokAll 0 = (true, 0, r1))
      ∧ (∃ r1, retry envFail tokAll polDefault rawsZero 5
          = Except.ok (Expected.unexpected "Retry operation was cancelled during backoff.",
              ⟨1, 1, r1⟩))
      ∧ (∀ s : String, "Retry operation was cancelled during backoff."
          ≠ "Retry failed after " ++ s ++ " attempts.")) :=
  ⟨⟨by decide, rfl, rfl, rfl, fun _ => rfl⟩,
    retry_cancelled_wait envFail tokAll polDefault rawsZero 5 "boom"
      (by decide) rfl rfl rfl (fun _ => rfl)⟩

/-- C6: if the first invocation returns a value the result predicate accepts,
`retry` performs exactly one invocation and no wait and returns that value
unchanged as the success outcome, whatever the token, policy and draws. -/
theorem retry_first_success {α : Type} (env : RetryEnv α) (tok : StopToken)
    (pol : BackoffPolicy) (raws : Nat → Nat) (maxAttempts : Int) (v : α)
    (hm : 1 ≤ maxAttempts)
    (hf : env.func 0 = Except.ok v)
    (hp : env.shouldRetryPredicate v = Except.ok false) :
    retry env tok pol raws maxAttempts = Except.ok (Expected.value v, ⟨1, 0, 0⟩) := by
  obtain ⟨k, hk⟩ : ∃ k, maxAttempts.toNat = k + 1 := ⟨maxAttempts.toNat - 1, by omega⟩
  simp only [retry]
  rw [hk]
  simp [retryLoop, iterStep, tryBlock, invokeStep, hf, hp]

/-- Witness for C6 with the always-succeeding environment. -/
theorem retry_first_success_witness :
    ((1:Int) ≤ 5
      ∧ envOk.func 0 = Except.ok 42
      ∧ envOk.shouldRetryPredicate 42 = Except.ok false)
    ∧ retry envOk tokNone polDefault rawsZero 5
        = Except.ok (Expected.value 42, ⟨1, 0, 0⟩) :=
  ⟨⟨by decide, rfl, rfl⟩,
    retry_first_success envOk tokNone polDefault rawsZero 5 42 (by decide) rfl rfl⟩

/-- C9: for `maxAttempts ≤ 0` the loop body never runs — no invocation, no
wait — and `retry` returns the exhaustion failure citing that very
`maxAttempts` value. -/
theorem retry_nonpositive_max {α : Type} (env : RetryEnv α) (tok : StopToken)
    (pol : BackoffPolicy) (raws : Nat → Nat) (maxAttempts : Int) (hm : maxAttempts ≤ 0) :
    retry env tok pol raws maxAttempts
      = Except.ok (Expected.unexpected
          ("Retry failed after " ++ toString maxAttempts ++ " attempts."), ⟨0, 0, 0⟩) := by
  have hk : maxAttempts.toNat = 0 := by omega
  simp only [retry]
  rw [hk]
  rfl

/-- Witness for C9 at `maxAttempts = 0`. -/
theorem retry_nonpositive_max_witness :
    (0:Int) ≤ 0
    ∧ retry envOk tokNone polDefault rawsZero 0
        = Except.ok (Expected.unexpected "Retry failed after 0 attempts.", ⟨0, 0, 0⟩) :=
  ⟨by decide, retry_nonpositive_max envOk tokNone polDefault rawsZero 0 (by decide)⟩

/-- C10: if the result predicate itself throws a describable error `e` on the
value the operation returned, the iteration behaves exactly as if the
operation had thrown `e`: (1) the iteration step equals the iteration step of
the environment whose operation throws `e` at that invocation index (wait and
predicate run inside the same protected region, so this holds for every
attempt index, waits included); (2) concretely, for a first attempt the
exception predicate is consulted on `e` and the iteration either falls through
to a retry or terminates with the exception-failure message embedding `e`. -/
theorem predicate_exception_routed {α : Type} (env : RetryEnv α) (tok : StopToken)
    (pol : BackoffPolicy) (raws : Nat → Nat) (st : LoopState) (v : α) (e : Exn)
    (hf : env.func st.invocations = Except.ok v)
    (hp : env.shouldRetryPredicate v = Except.error e) :
    (∀ attempts, iterStep env tok pol raws attempts st
        = iterStep { env with
            func := fun k => if k = st.invocations then Except.error e else env.func k }
            tok pol raws attempts st)
    ∧ iterStep env tok pol raws 0 st
        = Except.ok ((if env.shouldRetryExceptionPredicate e then none
              else some (Expected.unexpected ("Retry failed with exception: " ++ e))),
            { st with invocations := st.invocations + 1 }) := by
  have hboth : ∀ st1 : LoopState, st1.invocations = st.invocations →
      invokeStep env st1
        = invokeStep { env with
            func := fun k => if k = st.invocations then Except.error e else env.func k } st1 := by
    intro st1 h1
    simp [invokeStep, h1, hf, hp]
  constructor
  · intro attempts
    have htb : tryBlock env tok pol raws attempts st
        = tryBlock { env with
            func := fun k => if k = st.invocations then Except.error e else env.func k }
            tok pol raws attempts st := by
      simp only [tryBlock]
      by_cases ha : attempts > 0
      · simp only [if_pos ha]
        cases hc : (interruptibleSleep (pol.getDelay (attempts : Int) (raws st.waits)) tok st.reads).1 with
        | true => simp [hc]
        | false =>
          simp only [hc, Bool.false_eq_true, if_false]
          exact hboth _ rfl
      · simp only [if_neg ha]
        exact hboth st rfl
    simp only [iterStep, htb]
  · have h2 : tryBlock env tok pol raws 0 st
        = Except.error (e, { st with invocations := st.invocations + 1 }) := by
      simp [tryBlock, invokeStep, hf, hp]
    by_cases hps : env.shouldRetryExceptionPredicate e <;>
      simp [iterStep, h2, hps]

/-- Witness for C10 with the predicate-throwing environment at the initial
loop state. -/
theorem predicate_exception_routed_witness :
    (envPredThrow.func stZero.invocations = Except.ok 7
      ∧ envPredThrow.shouldRetryPredicate 7 = Except.error "bad")
    ∧ ((∀ attempts, iterStep envPredThrow tokNone polDefault rawsZero attempts stZero
        = iterStep { envPredThrow with
            func := fun k => if k = stZero.invocations then Except.error "bad"
              else envPredThrow.func k } tokNone polDefault rawsZero attempts stZero)
      ∧ iterStep envPredThrow tokNone polDefault rawsZero 0 stZero
        = Except.ok ((if envPredThrow.shouldRetryExceptionPredicate "bad" then none
              else some (Expected.unexpected ("Retry failed with exception: " ++ "bad"))),
            { stZero with invocations := stZero.invocations + 1 })) :=
  ⟨⟨rfl, rfl⟩,
    predicate_exception_routed envPredThrow tokNone polDefault rawsZero stZero 7 "bad" rfl rfl⟩

end Retryxx
